import Mathlib

/-!
Verification development for the faceswap-api repository (src/main.py,
src/preload_images.py). The FastAPI application stores images and face-swap
results in three MongoDB collections and delegates the face-swap computation
to an external Hugging Face Space over HTTP.

The shallow embedding below models:
  * byte payloads as `List Nat`;
  * MongoDB ObjectIds as natural numbers drawn from a fresh-id counter;
  * each collection as a list of documents in insertion order (`insert_one`
    appends; `find_one` on an id filter returns the first match; `find` with a
    projection excluding `image_data` maps documents to metadata records);
  * timestamps (`datetime.utcnow()`) as a natural number supplied per call;
  * the external network as an oracle `net` giving, for each provider call
    (identified by the pair of forwarded payloads and a running call counter),
    either an HTTP response or a raised network exception;
  * Python exception flow: each endpoint body returns `Except PyExn α`, and the
    enclosing broad `except Exception as e: raise HTTPException(500, str(e))`
    clause is the `handle` wrapper, which turns every raised exception, the
    handler's own `HTTPException`s included, into an error response with
    status 500 and the stringified exception as detail.
-/

namespace FaceSwap

/-- Opaque byte payloads: the code never decodes image bytes in the paths
modelled here, so bytes are a list of naturals. -/
abbrev Bytes := List Nat

/-- A document of the `Source_Images` or `Target_Images` collection, as built
by `upload_source_image` / `upload_target_image` / `preload_target_images` in
src/main.py: filename, raw bytes, content type and upload timestamp, keyed by
the ObjectId Mongo assigns on insertion. -/
structure ImageDoc where
  oid : Nat
  filename : String
  image_data : Bytes
  content_type : String
  uploaded_at : Nat
deriving Repr, DecidableEq

/-- A document of the `Results` collection, as built by `perform_face_swap` in
src/main.py lines 224-231. -/
structure ResultDoc where
  oid : Nat
  filename : String
  image_data : Bytes
  content_type : String
  source_image_id : Nat
  target_image_id : Nat
  created_at : Nat
deriving Repr, DecidableEq

/-- The mutable state the handlers touch: the three collections (in insertion
order), the ObjectId supply, and the number of provider HTTP calls made so far
(the call counter exists only to state call-count properties; the code keeps
no such counter). -/
structure DBState where
  source_images : List ImageDoc
  target_images : List ImageDoc
  results : List ResultDoc
  next_oid : Nat
  provider_calls : Nat
deriving Repr, DecidableEq

/-- `collection.find_one (\x7b"_id": ObjectId(i)\x7d)` on an image collection:
first document whose id matches, if any. -/
def findById (coll : List ImageDoc) (oid : Nat) : Option ImageDoc :=
  coll.find? (fun d => d.oid == oid)

/-- `results_collection.find_one (\x7b"_id": ObjectId(i)\x7d)`. -/
def findResultById (coll : List ResultDoc) (oid : Nat) : Option ResultDoc :=
  coll.find? (fun d => d.oid == oid)

/-- A Python exception as the handlers see it: either a FastAPI
`HTTPException(status_code, detail)` or any other exception carrying its
message. -/
inductive PyExn where
  | httpExc (status : Nat) (detail : String)
  | otherExc (msg : String)
deriving Repr, DecidableEq

/-- `str(e)`: Starlette's `HTTPException.__str__` renders
"\x7bstatus_code\x7d: \x7bdetail\x7d"; any other exception renders its
message. -/
def strOfExn : PyExn → String
  | .httpExc s d => toString s ++ ": " ++ d
  | .otherExc m => m

/-- The broad `except Exception as e: raise HTTPException(status_code=500,
detail=str(e))` clause wrapped around every endpoint body in src/main.py. -/
def handle {α : Type} (body : Except PyExn α) : Except (Nat × String) α :=
  match body with
  | .ok a => .ok a
  | .error e => .error (500, strOfExn e)

/-- An HTTP response from the Hugging Face Space: status code, the bytes
`await response.read()` would yield, and the text `await response.text()`
would yield. -/
structure HTTPResponse where
  status : Nat
  body : Bytes
  errText : String
deriving Repr, DecidableEq

/-- Outcome of one `session.post` to the provider: a response, or a raised
network-level exception with its message. -/
inductive NetOutcome where
  | ok (resp : HTTPResponse)
  | exn (msg : String)
deriving Repr, DecidableEq

/-- The body of `call_huggingface_space` (src/main.py lines 57-83) applied to
one network outcome: a non-200 status raises
`Exception("Hugging Face API error: " + error_text)`, which the function's own
`except` catches and returns as `(None, str(e))`; a network exception is
likewise returned as `(None, str(e))`; a 200 response returns
`(result_data, None)`. -/
def interpretResponse : NetOutcome → Option Bytes × Option String
  | .ok resp =>
      if resp.status ≠ 200 then
        (none, some ("Hugging Face API error: " ++ resp.errText))
      else
        (some resp.body, none)
  | .exn msg => (none, some msg)

/-- `call_huggingface_space(src_img_data, tgt_img_data)`: makes exactly one
HTTP POST to the Space (the oracle `net` is consulted once, at the current
call counter, with the forwarded payloads) and returns the
`(result_data, error)` pair together with the incremented call counter. -/
def call_huggingface_space (net : Bytes → Bytes → Nat → NetOutcome)
    (src_img_data tgt_img_data : Bytes) (calls : Nat) :
    (Option Bytes × Option String) × Nat :=
  (interpretResponse (net src_img_data tgt_img_data calls), calls + 1)

/-- Python truthiness of the `error` slot, as tested by `if error:` in
`perform_face_swap`: `None` and the empty string are falsy. -/
def isTruthy : Option String → Bool
  | none => false
  | some s => s ≠ ""

/-- Response model of `POST /api/upload/source` and `/api/upload/target`. -/
structure ImageResponse where
  id : Nat
  filename : String
  content_type : String
  uploaded_at : Nat
deriving Repr, DecidableEq

/-- Response model of `POST /api/faceswap`. -/
structure FaceSwapResponse where
  result_id : Nat
  message : String
deriving Repr, DecidableEq

/-- A `StreamingResponse` as produced by `get_target_image` and
`download_result`: the streamed bytes, the media type, and the filename put in
the Content-Disposition header. -/
structure StreamingOut where
  body : Bytes
  media_type : String
  filename : String
deriving Repr, DecidableEq

/-- Body of `upload_source_image` (src/main.py lines 97-121), inside the try:
`Image.open` failure (modelled by the `valid_image` flag) raises
`HTTPException(400, "Invalid image file")`; otherwise the document is inserted
into `Source_Images` with a fresh id and the metadata is returned. -/
def upload_source_image_body (now : Nat) (st : DBState) (filename : String)
    (contents : Bytes) (content_type : String) (valid_image : Bool) :
    Except PyExn ImageResponse × DBState :=
  if valid_image = false then
    (.error (.httpExc 400 "Invalid image file"), st)
  else
    let image_doc : ImageDoc :=
      { oid := st.next_oid, filename := filename, image_data := contents,
        content_type := content_type, uploaded_at := now }
    let st1 : DBState :=
      { st with source_images := st.source_images ++ [image_doc],
                next_oid := st.next_oid + 1 }
    (.ok { id := image_doc.oid, filename := filename,
           content_type := content_type, uploaded_at := now }, st1)

/-- `POST /api/upload/source` with its enclosing broad except clause
(src/main.py lines 92-123). -/
def upload_source_image (now : Nat) (st : DBState) (filename : String)
    (contents : Bytes) (content_type : String) (valid_image : Bool) :
    Except (Nat × String) ImageResponse × DBState :=
  let r := upload_source_image_body now st filename contents content_type valid_image
  (handle r.1, r.2)

/-- The result filename `f"faceswap_result_\x7btimestamp\x7d.png"` built at
src/main.py line 225, with the formatted UTC timestamp modelled by the
numeric clock value. -/
def resultFilename (now : Nat) : String :=
  "faceswap_result_" ++ toString now ++ ".png"

/-- Body of `perform_face_swap` (src/main.py lines 204-238), inside the try:
look up both documents, raising `HTTPException(404, ...)` for a missing one;
call the Space; `if error:` raise `HTTPException(500, error)`; otherwise
insert the result document (content type fixed to "image/png") and return the
fresh id with the success message. -/
def perform_face_swap_body (net : Bytes → Bytes → Nat → NetOutcome) (now : Nat)
    (st : DBState) (source_image_id target_image_id : Nat) :
    Except PyExn FaceSwapResponse × DBState :=
  match findById st.source_images source_image_id with
  | none => (.error (.httpExc 404 "Source image not found"), st)
  | some source_doc =>
    match findById st.target_images target_image_id with
    | none => (.error (.httpExc 404 "Target image not found"), st)
    | some target_doc =>
      let callRes :=
        call_huggingface_space net source_doc.image_data target_doc.image_data
          st.provider_calls
      let st1 : DBState := { st with provider_calls := callRes.2 }
      let result_data := callRes.1.1
      let error := callRes.1.2
      if isTruthy error then
        (.error (.httpExc 500 (error.getD "")), st1)
      else
        let result_doc : ResultDoc :=
          { oid := st1.next_oid, filename := resultFilename now,
            image_data := result_data.getD [], content_type := "image/png",
            source_image_id := source_image_id,
            target_image_id := target_image_id, created_at := now }
        let st2 : DBState :=
          { st1 with results := st1.results ++ [result_doc],
                     next_oid := st1.next_oid + 1 }
        (.ok { result_id := result_doc.oid,
               message := "Face swap completed successfully" }, st2)

/-- `POST /api/faceswap` with its enclosing broad except clause
(src/main.py lines 199-241). -/
def perform_face_swap (net : Bytes → Bytes → Nat → NetOutcome) (now : Nat)
    (st : DBState) (source_image_id target_image_id : Nat) :
    Except (Nat × String) FaceSwapResponse × DBState :=
  let r := perform_face_swap_body net now st source_image_id target_image_id
  (handle r.1, r.2)

/-- Body of `download_result` (src/main.py lines 249-258): a missing document
raises `HTTPException(404, "Result not found")`; otherwise the stored bytes
are streamed with the stored content type and filename. -/
def download_result_body (st : DBState) (result_id : Nat) :
    Except PyExn StreamingOut :=
  match findResultById st.results result_id with
  | none => .error (.httpExc 404 "Result not found")
  | some result =>
      .ok { body := result.image_data, media_type := result.content_type,
            filename := result.filename }

/-- `GET /api/results/\x7bresult_id\x7d` with its enclosing broad except
clause (src/main.py lines 244-260). -/
def download_result (st : DBState) (result_id : Nat) :
    Except (Nat × String) StreamingOut :=
  handle (download_result_body st result_id)

/-- Body of `get_target_image` (src/main.py lines 151-160): a missing document
raises `HTTPException(404, "Image not found")`. -/
def get_target_image_body (st : DBState) (image_id : Nat) :
    Except PyExn StreamingOut :=
  match findById st.target_images image_id with
  | none => .error (.httpExc 404 "Image not found")
  | some image =>
      .ok { body := image.image_data, media_type := image.content_type,
            filename := image.filename }

/-- `GET /api/target-images/\x7bimage_id\x7d` with its enclosing broad except
clause (src/main.py lines 146-162). -/
def get_target_image (st : DBState) (image_id : Nat) :
    Except (Nat × String) StreamingOut :=
  handle (get_target_image_body st image_id)

/-- The metadata projection of a result document, as produced by the
`find(\x7b\x7d, \x7b"image_data": 0\x7d)` query plus the per-field dictionary
built in `get_all_results` (src/main.py lines 270-278): every stored field
except the payload bytes. -/
structure ResultMeta where
  id : Nat
  filename : String
  content_type : String
  source_image_id : Nat
  target_image_id : Nat
  created_at : Nat
deriving Repr, DecidableEq

/-- The per-document dictionary appended by `get_all_results`. -/
def resultMeta (d : ResultDoc) : ResultMeta :=
  { id := d.oid, filename := d.filename, content_type := d.content_type,
    source_image_id := d.source_image_id, target_image_id := d.target_image_id,
    created_at := d.created_at }

/-- `GET /api/results` (src/main.py lines 263-282): iterates the `Results`
collection with `image_data` projected out, in collection order, with its
enclosing broad except clause. -/
def get_all_results (st : DBState) : Except (Nat × String) (List ResultMeta) :=
  handle (.ok (st.results.map resultMeta))

/-- The extension taken for the preloaded content type:
`filename.split(".")[-1].lower()` (src/main.py line 312). `str.split` always
yields a non-empty list, so the `[-1]` index is total. -/
def extOf (filename : String) : String :=
  ((filename.splitOn ".").getLastD "").toLower

/-- The filter `filename.lower().endswith((".png", ".jpg", ".jpeg"))` of the
preload loop (src/main.py line 300). -/
def hasImageExt (filename : String) : Bool :=
  let l := filename.toLower
  l.endsWith ".png" || l.endsWith ".jpg" || l.endsWith ".jpeg"

/-- The state the preload touches: the `Target_Images` collection and the
ObjectId supply. -/
structure TargetState where
  target_images : List ImageDoc
  next_oid : Nat
deriving Repr, DecidableEq

/-- One iteration of the preload loop (src/main.py lines 299-317, identical
logic in src/preload_images.py lines 16-36): skip filenames without an image
extension; otherwise check `find_one (\x7b"filename": filename\x7d)` and
insert the file's bytes only when no document with that filename exists. -/
def preload_one (now : Nat) (st : TargetState) (entry : String × Bytes) :
    TargetState :=
  if hasImageExt entry.1 then
    match st.target_images.find? (fun d => d.filename == entry.1) with
    | some _ => st
    | none =>
        let image_doc : ImageDoc :=
          { oid := st.next_oid, filename := entry.1, image_data := entry.2,
            content_type := "image/" ++ extOf entry.1, uploaded_at := now }
        { target_images := st.target_images ++ [image_doc],
          next_oid := st.next_oid + 1 }
  else st

/-- `preload_target_images` (src/main.py lines 293-317): fold the loop body
over the directory listing, modelled as a list of (filename, bytes) pairs. -/
def preload_target_images (dir : List (String × Bytes)) (now : Nat)
    (st : TargetState) : TargetState :=
  dir.foldl (preload_one now) st

/-- Well-formedness of the database state: every stored ObjectId is below the
fresh-id counter, so a newly assigned id collides with no stored document.
Mongo guarantees this by construction of ObjectIds; in the model it is the
invariant every handler preserves. -/
def WF (st : DBState) : Prop :=
  (∀ d ∈ st.source_images, d.oid < st.next_oid) ∧
  (∀ d ∈ st.target_images, d.oid < st.next_oid) ∧
  (∀ d ∈ st.results, d.oid < st.next_oid)

instance (st : DBState) : Decidable (WF st) := by
  unfold WF; infer_instance

/-! Concrete fixtures used by counterexamples and witnesses. -/

/-- A stored source image. -/
def srcDoc : ImageDoc :=
  { oid := 1, filename := "a.jpg", image_data := [10, 20],
    content_type := "image/jpeg", uploaded_at := 5 }

/-- A stored target image. -/
def tgtDoc : ImageDoc :=
  { oid := 2, filename := "b.jpg", image_data := [30],
    content_type := "image/jpeg", uploaded_at := 6 }

/-- A database holding one source image and one target image and no results. -/
def st0 : DBState :=
  { source_images := [srcDoc], target_images := [tgtDoc], results := [],
    next_oid := 3, provider_calls := 0 }

/-- An empty database. -/
def stEmpty : DBState :=
  { source_images := [], target_images := [], results := [], next_oid := 0,
    provider_calls := 0 }

/-- A provider whose connection always fails. -/
def netFail : Bytes → Bytes → Nat → NetOutcome :=
  fun _ _ _ => .exn "connection refused"

/-- A provider that always answers 200 with an empty body. -/
def netOkEmpty : Bytes → Bytes → Nat → NetOutcome :=
  fun _ _ _ => .ok { status := 200, body := [], errText := "" }

/-- A provider that always answers 200 with JPEG magic bytes. -/
def netOkJpeg : Bytes → Bytes → Nat → NetOutcome :=
  fun _ _ _ => .ok { status := 200, body := [255, 216], errText := "" }

/-- A provider that always answers 503 Service Unavailable. -/
def net503 : Bytes → Bytes → Nat → NetOutcome :=
  fun _ _ _ => .ok { status := 503, body := [], errText := "Service Unavailable" }

/-- A provider that refuses the connection on the first two calls and answers
200 from the third on: the transient-outage test double of the spec's retry
scenario. -/
def netFlaky : Bytes → Bytes → Nat → NetOutcome :=
  fun _ _ n =>
    if n < 2 then .exn "Connection refused"
    else .ok { status := 200, body := [1, 2], errText := "" }

/-! Helper lemmas. -/

/-- The broad except clause only ever produces status-500 errors, with the
stringified exception as detail. -/
lemma handle_error {α : Type} (body : Except PyExn α) (s : Nat) (d : String)
    (h : handle body = .error (s, d)) :
    s = 500 ∧ ∃ e, body = .error e ∧ d = strOfExn e := by
  cases body with
  | ok a => simp [handle] at h
  | error e =>
      simp [handle] at h
      exact ⟨h.1.symm, e, rfl, h.2.symm⟩

/-- The broad except clause maps a raised exception to a 500 response whose
detail is the stringified exception. -/
lemma handle_of_error {α : Type} (body : Except PyExn α) (e : PyExn)
    (h : body = .error e) : handle body = .error (500, strOfExn e) := by
  subst h; rfl

/-- Fully evaluated success path of `perform_face_swap`: when both documents
resolve and the provider answers 200, the endpoint returns the fresh id and
appends exactly one result document, built from the provider's body with the
constant content type "image/png". -/
lemma perform_face_swap_success (net : Bytes → Bytes → Nat → NetOutcome)
    (now : Nat) (st : DBState) (sid tid : Nat) (src tgt : ImageDoc)
    (resp : HTTPResponse)
    (hs : findById st.source_images sid = some src)
    (ht : findById st.target_images tid = some tgt)
    (hnet : net src.image_data tgt.image_data st.provider_calls = .ok resp)
    (h200 : resp.status = 200) :
    perform_face_swap net now st sid tid =
      (.ok { result_id := st.next_oid,
             message := "Face swap completed successfully" },
       { source_images := st.source_images, target_images := st.target_images,
         results := st.results ++
           [{ oid := st.next_oid, filename := resultFilename now,
              image_data := resp.body, content_type := "image/png",
              source_image_id := sid, target_image_id := tid,
              created_at := now }],
         next_oid := st.next_oid + 1,
         provider_calls := st.provider_calls + 1 }) := by
  simp [perform_face_swap, perform_face_swap_body, hs, ht,
        call_huggingface_space, hnet, interpretResponse, h200, isTruthy, handle]

/-- Fully evaluated provider-failure path of `perform_face_swap`: when both
documents resolve and the single provider call yields a non-empty error
string, the raised `HTTPException(500, error)` is rewrapped by the broad
except clause and no result document is inserted. -/
lemma perform_face_swap_provider_failure (net : Bytes → Bytes → Nat → NetOutcome)
    (now : Nat) (st : DBState) (sid tid : Nat) (src tgt : ImageDoc)
    (err : String)
    (hs : findById st.source_images sid = some src)
    (ht : findById st.target_images tid = some tgt)
    (herr : (interpretResponse
        (net src.image_data tgt.image_data st.provider_calls)).2 = some err)
    (hne : err ≠ "") :
    perform_face_swap net now st sid tid =
      (.error (500, strOfExn (.httpExc 500 err)),
       { st with provider_calls := st.provider_calls + 1 }) := by
  simp [perform_face_swap, perform_face_swap_body, hs, ht,
        call_huggingface_space, herr, isTruthy, hne, handle]

/-- Searching a collection whose entries all fail the predicate, extended by
one entry satisfying it, finds the new entry. -/
lemma find?_append_singleton {α : Type} (p : α → Bool) (l : List α) (x : α)
    (hl : l.find? p = none) (hx : p x = true) :
    (l ++ [x]).find? p = some x := by
  rw [List.find?_append, hl, List.find?_cons_of_pos _ hx]
  rfl

/-! Claim theorems. -/

/-- C4: for every submitted swap request in which the source ref or the target
ref does not resolve to a stored document, `perform_face_swap` fails
immediately with the corresponding not-found error, the database state is
unchanged, and the provider call counter does not move — zero adapter
invocations, so the failure short-circuits before any external network
call. -/
theorem C4_missing_input_short_circuits (net : Bytes → Bytes → Nat → NetOutcome)
    (now : Nat) (st : DBState) (sid tid : Nat)
    (h : findById st.source_images sid = none ∨
         findById st.target_images tid = none) :
    (perform_face_swap net now st sid tid).2 = st ∧
    (perform_face_swap net now st sid tid).2.provider_calls =
      st.provider_calls ∧
    ((perform_face_swap net now st sid tid).1 =
        .error (500, "404: Source image not found") ∨
     (perform_face_swap net now st sid tid).1 =
        .error (500, "404: Target image not found")) := by
  rcases h with h | h
  · have e : perform_face_swap net now st sid tid =
        (.error (500, "404: Source image not found"), st) := by
      unfold perform_face_swap perform_face_swap_body
      rw [h]
      rfl
    rw [e]
    exact ⟨rfl, rfl, Or.inl rfl⟩
  · cases hs : findById st.source_images sid with
    | none =>
        have e : perform_face_swap net now st sid tid =
            (.error (500, "404: Source image not found"), st) := by
          unfold perform_face_swap perform_face_swap_body
          rw [hs]
          rfl
        rw [e]
        exact ⟨rfl, rfl, Or.inl rfl⟩
    | some src =>
        have e : perform_face_swap net now st sid tid =
            (.error (500, "404: Target image not found"), st) := by
          unfold perform_face_swap perform_face_swap_body
          rw [hs, h]
          rfl
        rw [e]
        exact ⟨rfl, rfl, Or.inr rfl⟩

/-- Witness for C4: submitting against an empty database fails without moving
the provider call counter. -/
theorem C4_missing_input_short_circuits_witness :
    (findById stEmpty.source_images 1 = none ∨
     findById stEmpty.target_images 2 = none) ∧
    ((perform_face_swap netFail 0 stEmpty 1 2).2 = stEmpty ∧
     (perform_face_swap netFail 0 stEmpty 1 2).2.provider_calls =
       stEmpty.provider_calls ∧
     ((perform_face_swap netFail 0 stEmpty 1 2).1 =
         .error (500, "404: Source image not found") ∨
      (perform_face_swap netFail 0 stEmpty 1 2).1 =
         .error (500, "404: Target image not found"))) :=
  ⟨Or.inl rfl,
   C4_missing_input_short_circuits netFail 0 stEmpty 1 2 (Or.inl rfl)⟩

/-- C1 counterexample: a request whose refs both resolve and whose provider
call fails produces no recorded SwapResult at all — the `Results` collection
stays empty and the caller receives only an HTTP 500 — refuting the claim
that a terminal outcome is recorded even when the provider call fails. -/
theorem C1_counterexample_failure_records_nothing :
    findById st0.source_images 1 = some srcDoc ∧
    findById st0.target_images 2 = some tgtDoc ∧
    (perform_face_swap netFail 100 st0 1 2).1 =
      .error (500, "500: connection refused") ∧
    (perform_face_swap netFail 100 st0 1 2).2.results = [] :=
  ⟨rfl, rfl, rfl, rfl⟩

/-- C1 amended: for every accepted request (both refs resolve), either the
endpoint fails with an HTTP 500 error and no result document is recorded, or
it succeeds and exactly one new result document is appended, whose fresh id is
the one returned to the caller — a recorded outcome exists only on the
success path. -/
theorem C1_amended_result_recorded_iff_success
    (net : Bytes → Bytes → Nat → NetOutcome) (now : Nat) (st : DBState)
    (sid tid : Nat) (src tgt : ImageDoc)
    (hs : findById st.source_images sid = some src)
    (ht : findById st.target_images tid = some tgt) :
    (∃ d, (perform_face_swap net now st sid tid).1 = .error (500, d) ∧
       (perform_face_swap net now st sid tid).2.results = st.results) ∨
    (∃ r doc, (perform_face_swap net now st sid tid).1 = .ok r ∧
       (perform_face_swap net now st sid tid).2.results = st.results ++ [doc] ∧
       doc.oid = r.result_id) := by
  unfold perform_face_swap perform_face_swap_body
  rw [hs, ht]
  cases htr : isTruthy
      (call_huggingface_space net src.image_data tgt.image_data
        st.provider_calls).1.2 with
  | true =>
      left
      refine ⟨strOfExn (.httpExc 500
          ((call_huggingface_space net src.image_data tgt.image_data
            st.provider_calls).1.2.getD "")), ?_, ?_⟩ <;>
        simp [htr, handle]
  | false =>
      right
      refine ⟨{ result_id := st.next_oid,
                message := "Face swap completed successfully" },
              { oid := st.next_oid, filename := resultFilename now,
                image_data := (call_huggingface_space net src.image_data
                  tgt.image_data st.provider_calls).1.1.getD [],
                content_type := "image/png", source_image_id := sid,
                target_image_id := tid, created_at := now }, ?_, ?_, rfl⟩ <;>
        simp [htr, handle]

/-- Witness for C1 amended: with a healthy provider, the accepted request
falls into one of the two branches. -/
theorem C1_amended_result_recorded_iff_success_witness :
    (∃ d, (perform_face_swap netOkJpeg 100 st0 1 2).1 = .error (500, d) ∧
       (perform_face_swap netOkJpeg 100 st0 1 2).2.results = st0.results) ∨
    (∃ r doc, (perform_face_swap netOkJpeg 100 st0 1 2).1 = .ok r ∧
       (perform_face_swap netOkJpeg 100 st0 1 2).2.results =
         st0.results ++ [doc] ∧
       doc.oid = r.result_id) :=
  C1_amended_result_recorded_iff_success netOkJpeg 100 st0 1 2 srcDoc tgtDoc
    rfl rfl

/-- C2 counterexample: against a provider that refuses the connection on the
first two calls and would succeed on the third — the spec's retry scenario —
the adapter makes exactly one provider call, surfaces the failure, and the
swap fails, refuting the claimed internal retry of up to 3 attempts for
unavailable-provider failures. -/
theorem C2_counterexample_no_retry :
    netFlaky [10, 20] [30] 0 = .exn "Connection refused" ∧
    netFlaky [10, 20] [30] 2 =
      .ok { status := 200, body := [1, 2], errText := "" } ∧
    call_huggingface_space netFlaky [10, 20] [30] 0 =
      ((none, some "Connection refused"), 1) ∧
    (perform_face_swap netFlaky 100 st0 1 2).1 =
      .error (500, "500: Connection refused") ∧
    (perform_face_swap netFlaky 100 st0 1 2).2.provider_calls = 1 :=
  ⟨rfl, rfl, rfl, rfl, rfl⟩

/-- C2 amended: every invocation of `call_huggingface_space` makes exactly one
provider call, whatever the outcome; no failure class is retried, and the
classified error of that single call — the raw exception message for network
failures, the "Hugging Face API error" message for non-200 responses — is
surfaced as is. -/
theorem C2_amended_exactly_one_call (net : Bytes → Bytes → Nat → NetOutcome)
    (s t : Bytes) (calls : Nat) :
    (call_huggingface_space net s t calls).2 = calls + 1 ∧
    (∀ msg, net s t calls = .exn msg →
       (call_huggingface_space net s t calls).1 = (none, some msg)) ∧
    (∀ resp, net s t calls = .ok resp → resp.status ≠ 200 →
       (call_huggingface_space net s t calls).1 =
         (none, some ("Hugging Face API error: " ++ resp.errText))) ∧
    (∀ resp, net s t calls = .ok resp → resp.status = 200 →
       (call_huggingface_space net s t calls).1 = (some resp.body, none)) := by
  refine ⟨rfl, ?_, ?_, ?_⟩
  · intro msg h
    simp [call_huggingface_space, h, interpretResponse]
  · intro resp h hne
    simp [call_huggingface_space, h, interpretResponse, hne]
  · intro resp h h200
    simp [call_huggingface_space, h, interpretResponse, h200]

/-- Witness for C2 amended: one failing call increments the counter once and
surfaces its message. -/
theorem C2_amended_exactly_one_call_witness :
    (call_huggingface_space netFail [1] [2] 0).2 = 0 + 1 ∧
    (call_huggingface_space netFail [1] [2] 0).1 =
      (none, some "connection refused") :=
  ⟨(C2_amended_exactly_one_call netFail [1] [2] 0).1,
   (C2_amended_exactly_one_call netFail [1] [2] 0).2.1 "connection refused"
     rfl⟩

/-- Modelled from the spec: the error-kind taxonomy of section 7 of the
specification, listed to compare the details the code actually reports
against the names the spec prescribes. -/
def specErrorTaxonomy : List String :=
  ["InputNotFound", "ProviderUnavailable", "ProviderTimeout",
   "ProviderRejected", "ProviderProtocolError", "ResultPersistFailure",
   "StoreUnavailable"]

/-- C3 counterexample: an accepted request whose provider answers 503 ends
with no recorded SwapResult (so no stored errorDetail exists at all), and the
error detail the caller receives is the stringified exception chain, which is
not one of the taxonomy kind names. -/
theorem C3_counterexample_detail_not_taxonomy :
    findById st0.source_images 1 = some srcDoc ∧
    findById st0.target_images 2 = some tgtDoc ∧
    (perform_face_swap net503 100 st0 1 2).1 =
      .error (500, "500: Hugging Face API error: Service Unavailable") ∧
    "500: Hugging Face API error: Service Unavailable" ∉ specErrorTaxonomy ∧
    (perform_face_swap net503 100 st0 1 2).2.results = [] :=
  ⟨rfl, rfl, rfl, by decide, rfl⟩

/-- C3 amended: when the single provider call of an accepted request fails
with a non-empty error string, no result document is recorded and the caller
receives an HTTP 500 whose detail is the stringification of the re-raised
`HTTPException(500, error)` — the raw error string prefixed with "500: " —
rather than a taxonomy kind name. -/
theorem C3_amended_failure_detail_is_stringified
    (net : Bytes → Bytes → Nat → NetOutcome) (now : Nat) (st : DBState)
    (sid tid : Nat) (src tgt : ImageDoc) (err : String)
    (hs : findById st.source_images sid = some src)
    (ht : findById st.target_images tid = some tgt)
    (herr : (interpretResponse
        (net src.image_data tgt.image_data st.provider_calls)).2 = some err)
    (hne : err ≠ "") :
    (perform_face_swap net now st sid tid).1 =
      .error (500, strOfExn (.httpExc 500 err)) ∧
    (perform_face_swap net now st sid tid).2.results = st.results := by
  rw [perform_face_swap_provider_failure net now st sid tid src tgt err hs ht
        herr hne]
  exact ⟨rfl, rfl⟩

/-- Witness for C3 amended: the 503 provider failure surfaces as the
stringified 500 exception and records nothing. -/
theorem C3_amended_failure_detail_is_stringified_witness :
    (perform_face_swap net503 100 st0 1 2).1 =
      .error (500,
        strOfExn (.httpExc 500 "Hugging Face API error: Service Unavailable")) ∧
    (perform_face_swap net503 100 st0 1 2).2.results = st0.results :=
  C3_amended_failure_detail_is_stringified net503 100 st0 1 2 srcDoc tgtDoc
    "Hugging Face API error: Service Unavailable" rfl rfl rfl (by decide)

/-- C5: round-trip. Bytes stored by an upload are retrieved byte-identical
via a lookup of the returned id, and the result id returned by a successful
swap resolves through `download_result` to exactly the bytes the provider
returned. -/
theorem C5_round_trip :
    (∀ now st f c ct, WF st →
       ∃ resp doc,
         (upload_source_image now st f c ct true).1 = .ok resp ∧
         findById (upload_source_image now st f c ct true).2.source_images
           resp.id = some doc ∧
         doc.image_data = c) ∧
    (∀ net now st sid tid src tgt resp, WF st →
       findById st.source_images sid = some src →
       findById st.target_images tid = some tgt →
       net src.image_data tgt.image_data st.provider_calls = .ok resp →
       resp.status = 200 →
       ∃ r out,
         (perform_face_swap net now st sid tid).1 = .ok r ∧
         download_result (perform_face_swap net now st sid tid).2 r.result_id =
           .ok out ∧
         out.body = resp.body) := by
  constructor
  · intro now st f c ct hwf
    refine ⟨{ id := st.next_oid, filename := f, content_type := ct,
              uploaded_at := now },
            { oid := st.next_oid, filename := f, image_data := c,
              content_type := ct, uploaded_at := now }, rfl, ?_, rfl⟩
    have hlist : (upload_source_image now st f c ct true).2.source_images =
        st.source_images ++
          [{ oid := st.next_oid, filename := f, image_data := c,
             content_type := ct, uploaded_at := now }] := rfl
    rw [hlist]
    unfold findById
    apply find?_append_singleton
    · exact List.find?_eq_none.mpr fun x hx => by
        simp only [beq_iff_eq]
        exact Nat.ne_of_lt (hwf.1 x hx)
    · simp
  · intro net now st sid tid src tgt resp hwf hs ht hnet h200
    rw [perform_face_swap_success net now st sid tid src tgt resp hs ht hnet
          h200]
    refine ⟨{ result_id := st.next_oid,
              message := "Face swap completed successfully" },
            { body := resp.body, media_type := "image/png",
              filename := resultFilename now }, rfl, ?_, rfl⟩
    unfold download_result download_result_body findResultById
    rw [find?_append_singleton _ _ _
          (List.find?_eq_none.mpr fun x hx => by
            simp only [beq_iff_eq]
            exact Nat.ne_of_lt (hwf.2.2 x hx))
          (by simp)]
    rfl

/-- Witness for C5: a concrete upload round-trips its two bytes, and a
concrete successful swap's result id downloads to the provider's bytes. -/
theorem C5_round_trip_witness :
    (∃ resp doc,
       (upload_source_image 7 st0 "c.jpg" [9, 9] "image/jpeg" true).1 =
         .ok resp ∧
       findById (upload_source_image 7 st0 "c.jpg" [9, 9] "image/jpeg"
           true).2.source_images resp.id = some doc ∧
       doc.image_data = [9, 9]) ∧
    (∃ r out,
       (perform_face_swap netOkJpeg 100 st0 1 2).1 = .ok r ∧
       download_result (perform_face_swap netOkJpeg 100 st0 1 2).2
         r.result_id = .ok out ∧
       out.body = [255, 216]) :=
  ⟨C5_round_trip.1 7 st0 "c.jpg" [9, 9] "image/jpeg" (by decide),
   C5_round_trip.2 netOkJpeg 100 st0 1 2 srcDoc tgtDoc
     { status := 200, body := [255, 216], errText := "" } (by decide) rfl rfl
     rfl rfl⟩

/-- C6: `get_all_results` returns the metadata of all stored results in
collection (insertion) order; the projection carries no payload bytes (it is
invariant under the stored payload), and when the stored creation times are
monotone along the collection — as they are when every insertion uses a clock
that never runs backwards — the returned metadata is ordered by creation
time. -/
theorem C6_list_results_metadata_ordered (st : DBState)
    (hsort : st.results.Pairwise fun a b => a.created_at ≤ b.created_at) :
    get_all_results st = .ok (st.results.map resultMeta) ∧
    (st.results.map resultMeta).Pairwise
      (fun a b => a.created_at ≤ b.created_at) ∧
    ∀ d b, resultMeta { d with image_data := b } = resultMeta d := by
  refine ⟨rfl, ?_, fun d b => rfl⟩
  exact List.pairwise_map.mpr (hsort.imp fun h => h)

/-- A first stored result, created at time 10. -/
def resA : ResultDoc :=
  { oid := 0, filename := "faceswap_result_10.png", image_data := [1],
    content_type := "image/png", source_image_id := 1, target_image_id := 2,
    created_at := 10 }

/-- A second stored result, created at time 20. -/
def resB : ResultDoc :=
  { oid := 1, filename := "faceswap_result_20.png", image_data := [2, 3],
    content_type := "image/png", source_image_id := 1, target_image_id := 2,
    created_at := 20 }

/-- A database holding the two results in creation order. -/
def stRes : DBState :=
  { source_images := [], target_images := [], results := [resA, resB],
    next_oid := 5, provider_calls := 0 }

/-- Witness for C6 on a concrete two-result store. -/
theorem C6_list_results_metadata_ordered_witness :
    stRes.results.Pairwise (fun a b => a.created_at ≤ b.created_at) ∧
    (get_all_results stRes = .ok (stRes.results.map resultMeta) ∧
     (stRes.results.map resultMeta).Pairwise
       (fun a b => a.created_at ≤ b.created_at) ∧
     ∀ d b, resultMeta { d with image_data := b } = resultMeta d) :=
  ⟨by decide, C6_list_results_metadata_ordered stRes (by decide)⟩

/-- C7 counterexample: the adapter returns bytes with no declared media type,
an empty provider body is accepted as a success and persisted as an empty
payload, and the persisted content type is the constant "image/png" whatever
the provider returned — refuting both the non-empty-payload guarantee and the
carried-declared-media-type guarantee. -/
theorem C7_counterexample_media_type_constant :
    (perform_face_swap netOkEmpty 100 st0 1 2).1 =
      .ok { result_id := 3, message := "Face swap completed successfully" } ∧
    (perform_face_swap netOkEmpty 100 st0 1 2).2.results =
      [{ oid := 3, filename := "faceswap_result_100.png", image_data := [],
         content_type := "image/png", source_image_id := 1,
         target_image_id := 2, created_at := 100 }] ∧
    (call_huggingface_space netOkEmpty [10, 20] [30] 0).1 = (some [], none) ∧
    (perform_face_swap netOkJpeg 100 st0 1 2).2.results.map
        (fun d => d.content_type) = ["image/png"] :=
  ⟨rfl, rfl, rfl, rfl⟩

/-- C7 amended: on every 200 provider response the adapter hands back the raw
response bytes with no declared media type and no emptiness check, and the
persisted result document stores exactly those bytes under the fixed content
type "image/png", independent of anything the provider declared. -/
theorem C7_amended_raw_bytes_fixed_png
    (net : Bytes → Bytes → Nat → NetOutcome) (now : Nat) (st : DBState)
    (sid tid : Nat) (src tgt : ImageDoc) (resp : HTTPResponse)
    (hs : findById st.source_images sid = some src)
    (ht : findById st.target_images tid = some tgt)
    (hnet : net src.image_data tgt.image_data st.provider_calls = .ok resp)
    (h200 : resp.status = 200) :
    (perform_face_swap net now st sid tid).1 =
      .ok { result_id := st.next_oid,
            message := "Face swap completed successfully" } ∧
    (perform_face_swap net now st sid tid).2.results =
      st.results ++
        [{ oid := st.next_oid, filename := resultFilename now,
           image_data := resp.body, content_type := "image/png",
           source_image_id := sid, target_image_id := tid,
           created_at := now }] := by
  rw [perform_face_swap_success net now st sid tid src tgt resp hs ht hnet
        h200]
  exact ⟨rfl, rfl⟩

/-- Witness for C7 amended: an empty 200 body persists as an empty payload
under "image/png". -/
theorem C7_amended_raw_bytes_fixed_png_witness :
    (perform_face_swap netOkEmpty 100 st0 1 2).1 =
      .ok { result_id := st0.next_oid,
            message := "Face swap completed successfully" } ∧
    (perform_face_swap netOkEmpty 100 st0 1 2).2.results =
      st0.results ++
        [{ oid := st0.next_oid, filename := resultFilename 100,
           image_data := [], content_type := "image/png",
           source_image_id := 1, target_image_id := 2, created_at := 100 }] :=
  C7_amended_raw_bytes_fixed_png netOkEmpty 100 st0 1 2 srcDoc tgtDoc
    { status := 200, body := [], errText := "" } rfl rfl rfl rfl

/-- C8: resubmitting the same (source, target) pair is never deduplicated:
the provider is invoked again (two invocations in total), a wholly new result
document with a fresh id distinct from the first is created, and both
documents record the submitted pair for traceability. -/
theorem C8_resubmission_always_recomputes
    (net : Bytes → Bytes → Nat → NetOutcome) (now1 now2 : Nat) (st : DBState)
    (sid tid : Nat) (src tgt : ImageDoc) (resp1 resp2 : HTTPResponse)
    (hs : findById st.source_images sid = some src)
    (ht : findById st.target_images tid = some tgt)
    (h1 : net src.image_data tgt.image_data st.provider_calls = .ok resp1)
    (h1s : resp1.status = 200)
    (h2 : net src.image_data tgt.image_data (st.provider_calls + 1) =
      .ok resp2)
    (h2s : resp2.status = 200) :
    ∃ r1 r2 d1 d2,
      (perform_face_swap net now1 st sid tid).1 = .ok r1 ∧
      (perform_face_swap net now2 (perform_face_swap net now1 st sid tid).2
          sid tid).1 = .ok r2 ∧
      (perform_face_swap net now2 (perform_face_swap net now1 st sid tid).2
          sid tid).2.provider_calls = st.provider_calls + 2 ∧
      r1.result_id ≠ r2.result_id ∧
      (perform_face_swap net now2 (perform_face_swap net now1 st sid tid).2
          sid tid).2.results = st.results ++ [d1, d2] ∧
      d1.oid = r1.result_id ∧ d1.source_image_id = sid ∧
      d1.target_image_id = tid ∧
      d2.oid = r2.result_id ∧ d2.source_image_id = sid ∧
      d2.target_image_id = tid := by
  have e1 := perform_face_swap_success net now1 st sid tid src tgt resp1 hs ht
    h1 h1s
  rw [e1]
  have e2 := perform_face_swap_success net now2
    { source_images := st.source_images, target_images := st.target_images,
      results := st.results ++
        [{ oid := st.next_oid, filename := resultFilename now1,
           image_data := resp1.body, content_type := "image/png",
           source_image_id := sid, target_image_id := tid,
           created_at := now1 }],
      next_oid := st.next_oid + 1, provider_calls := st.provider_calls + 1 }
    sid tid src tgt resp2 hs ht h2 h2s
  rw [e2]
  refine ⟨{ result_id := st.next_oid,
            message := "Face swap completed successfully" },
          { result_id := st.next_oid + 1,
            message := "Face swap completed successfully" },
          { oid := st.next_oid, filename := resultFilename now1,
            image_data := resp1.body, content_type := "image/png",
            source_image_id := sid, target_image_id := tid,
            created_at := now1 },
          { oid := st.next_oid + 1, filename := resultFilename now2,
            image_data := resp2.body, content_type := "image/png",
            source_image_id := sid, target_image_id := tid,
            created_at := now2 },
          rfl, rfl, rfl, Nat.ne_of_lt (Nat.lt_succ_self _), ?_,
          rfl, rfl, rfl, rfl, rfl, rfl⟩
  simp [List.append_assoc]

/-- Witness for C8: two concrete submissions of the same pair. -/
theorem C8_resubmission_always_recomputes_witness :
    ∃ r1 r2 d1 d2,
      (perform_face_swap netOkJpeg 50 st0 1 2).1 = .ok r1 ∧
      (perform_face_swap netOkJpeg 60 (perform_face_swap netOkJpeg 50 st0 1
          2).2 1 2).1 = .ok r2 ∧
      (perform_face_swap netOkJpeg 60 (perform_face_swap netOkJpeg 50 st0 1
          2).2 1 2).2.provider_calls = st0.provider_calls + 2 ∧
      r1.result_id ≠ r2.result_id ∧
      (perform_face_swap netOkJpeg 60 (perform_face_swap netOkJpeg 50 st0 1
          2).2 1 2).2.results = st0.results ++ [d1, d2] ∧
      d1.oid = r1.result_id ∧ d1.source_image_id = 1 ∧
      d1.target_image_id = 2 ∧
      d2.oid = r2.result_id ∧ d2.source_image_id = 1 ∧
      d2.target_image_id = 2 :=
  C8_resubmission_always_recomputes netOkJpeg 50 60 st0 1 2 srcDoc tgtDoc
    { status := 200, body := [255, 216], errText := "" }
    { status := 200, body := [255, 216], errText := "" }
    rfl rfl rfl rfl rfl rfl

/-- C9: at the HTTP interface, every exception an endpoint body raises —
the handler's own `HTTPException(400/404, ...)` included — is caught by the
enclosing broad except clause and surfaces as a status-500 response whose
detail is the stringified original exception; consequently the four endpoints
with such handlers never answer 400 or 404. -/
theorem C9_all_handler_errors_become_500 :
    (∀ now st f c ct v e, (upload_source_image_body now st f c ct v).1 =
        .error e →
       (upload_source_image now st f c ct v).1 = .error (500, strOfExn e)) ∧
    (∀ net now st sid tid e, (perform_face_swap_body net now st sid tid).1 =
        .error e →
       (perform_face_swap net now st sid tid).1 = .error (500, strOfExn e)) ∧
    (∀ st rid e, download_result_body st rid = .error e →
       download_result st rid = .error (500, strOfExn e)) ∧
    (∀ st iid e, get_target_image_body st iid = .error e →
       get_target_image st iid = .error (500, strOfExn e)) ∧
    (∀ now st f c ct v s d, (upload_source_image now st f c ct v).1 =
        .error (s, d) → s = 500 ∧ s ≠ 400 ∧ s ≠ 404) ∧
    (∀ net now st sid tid s d, (perform_face_swap net now st sid tid).1 =
        .error (s, d) → s = 500 ∧ s ≠ 400 ∧ s ≠ 404) ∧
    (∀ st rid s d, download_result st rid = .error (s, d) →
       s = 500 ∧ s ≠ 400 ∧ s ≠ 404) ∧
    (∀ st iid s d, get_target_image st iid = .error (s, d) →
       s = 500 ∧ s ≠ 400 ∧ s ≠ 404) := by
  refine ⟨?_, ?_, ?_, ?_, ?_, ?_, ?_, ?_⟩
  · intro now st f c ct v e h
    exact handle_of_error _ e h
  · intro net now st sid tid e h
    exact handle_of_error _ e h
  · intro st rid e h
    exact handle_of_error _ e h
  · intro st iid e h
    exact handle_of_error _ e h
  · intro now st f c ct v s d h
    obtain ⟨h5, -⟩ := handle_error _ s d h
    subst h5
    exact ⟨rfl, by decide, by decide⟩
  · intro net now st sid tid s d h
    obtain ⟨h5, -⟩ := handle_error _ s d h
    subst h5
    exact ⟨rfl, by decide, by decide⟩
  · intro st rid s d h
    obtain ⟨h5, -⟩ := handle_error _ s d h
    subst h5
    exact ⟨rfl, by decide, by decide⟩
  · intro st iid s d h
    obtain ⟨h5, -⟩ := handle_error _ s d h
    subst h5
    exact ⟨rfl, by decide, by decide⟩

/-- Witness for C9: an invalid upload, a missing result, a missing target
image and a missing swap source all surface as status 500 with the
stringified inner exception as detail. -/
theorem C9_all_handler_errors_become_500_witness :
    (upload_source_image 0 stEmpty "f.jpg" [1] "image/jpeg" false).1 =
      .error (500, "400: Invalid image file") ∧
    download_result stEmpty 5 = .error (500, "404: Result not found") ∧
    get_target_image stEmpty 7 = .error (500, "404: Image not found") ∧
    (perform_face_swap netFail 0 stEmpty 1 2).1 =
      .error (500, "404: Source image not found") :=
  ⟨C9_all_handler_errors_become_500.1 0 stEmpty "f.jpg" [1] "image/jpeg" false
     (.httpExc 400 "Invalid image file") rfl,
   C9_all_handler_errors_become_500.2.2.1 stEmpty 5
     (.httpExc 404 "Result not found") rfl,
   C9_all_handler_errors_become_500.2.2.2.1 stEmpty 7
     (.httpExc 404 "Image not found") rfl,
   C9_all_handler_errors_become_500.2.1 netFail 0 stEmpty 1 2
     (.httpExc 404 "Source image not found") rfl⟩

/-- Unfolding one iteration of the preload fold. -/
lemma preload_cons (a : String × Bytes) (as : List (String × Bytes))
    (now : Nat) (st : TargetState) :
    preload_target_images (a :: as) now st =
      preload_target_images as now (preload_one now st a) := by
  simp only [preload_target_images, List.foldl]

/-- The empty directory preloads nothing. -/
lemma preload_nil (now : Nat) (st : TargetState) :
    preload_target_images [] now st = st := by
  simp only [preload_target_images, List.foldl]

/-- One preload step never removes a filename from the collection. -/
lemma filename_mem_preload_one (now : Nat) (st : TargetState)
    (e : String × Bytes) (name : String)
    (h : ∃ d ∈ st.target_images, d.filename = name) :
    ∃ d ∈ (preload_one now st e).target_images, d.filename = name := by
  obtain ⟨d, hd, hn⟩ := h
  unfold preload_one
  split
  · split
    · exact ⟨d, hd, hn⟩
    · exact ⟨d, List.mem_append_left _ hd, hn⟩
  · exact ⟨d, hd, hn⟩

/-- After a preload step on an image-extension entry, a document with the
entry's filename is stored: either it already existed (the existence check
found it) or it was just inserted. -/
lemma filename_mem_preload_one_self (now : Nat) (st : TargetState)
    (e : String × Bytes) (he : hasImageExt e.1 = true) :
    ∃ d ∈ (preload_one now st e).target_images, d.filename = e.1 := by
  unfold preload_one
  rw [he]
  simp only [if_true]
  cases hf : st.target_images.find? (fun d => d.filename == e.1) with
  | none =>
      exact ⟨{ oid := st.next_oid, filename := e.1, image_data := e.2,
               content_type := "image/" ++ extOf e.1, uploaded_at := now },
             List.mem_append_right _ (List.mem_singleton.mpr rfl), rfl⟩
  | some d =>
      exact ⟨d, List.mem_of_find?_eq_some hf,
             by simpa using List.find?_some hf⟩

/-- A whole preload run never removes a filename from the collection. -/
lemma filename_mem_preload (dir : List (String × Bytes)) (now : Nat)
    (st : TargetState) (name : String)
    (h : ∃ d ∈ st.target_images, d.filename = name) :
    ∃ d ∈ (preload_target_images dir now st).target_images, d.filename = name := by
  induction dir generalizing st with
  | nil => rw [preload_nil]; exact h
  | cons a as ih =>
      rw [preload_cons]
      exact ih (preload_one now st a) (filename_mem_preload_one now st a name h)

/-- After a preload run, every image-extension filename of the directory is
stored. -/
lemma preload_covers (dir : List (String × Bytes)) (now : Nat)
    (st : TargetState) :
    ∀ e ∈ dir, hasImageExt e.1 = true →
      ∃ d ∈ (preload_target_images dir now st).target_images,
        d.filename = e.1 := by
  induction dir generalizing st with
  | nil =>
      intro e he
      cases he
  | cons a as ih =>
      intro e he hext
      rw [preload_cons]
      rcases List.mem_cons.mp he with rfl | he2
      · exact filename_mem_preload as now (preload_one now st e) e.1
          (filename_mem_preload_one_self now st e hext)
      · exact ih (preload_one now st a) e he2 hext

/-- A preload run over a directory all of whose image-extension filenames are
already stored changes nothing: every existence check succeeds, so no insert
happens. -/
lemma preload_noop (dir : List (String × Bytes)) (now : Nat)
    (st : TargetState)
    (h : ∀ e ∈ dir, hasImageExt e.1 = true →
       ∃ d ∈ st.target_images, d.filename = e.1) :
    preload_target_images dir now st = st := by
  induction dir with
  | nil => exact preload_nil now st
  | cons a as ih =>
      have h1 : preload_one now st a = st := by
        unfold preload_one
        cases hext : hasImageExt a.1 with
        | false => simp [hext]
        | true =>
            obtain ⟨d, hd, hn⟩ := h a (List.mem_cons_self a as) hext
            cases hf : st.target_images.find? (fun x => x.filename == a.1) with
            | some _ => simp [hf]
            | none =>
                exact absurd (by simp [hn]) (List.find?_eq_none.mp hf d hd)
      rw [preload_cons, h1]
      exact ih fun e he hext => h e (List.mem_cons_of_mem a he) hext

/-- C10: preloading is idempotent with respect to filenames. After one
preload run over a directory, a second run over any directory listing the
same filenames — the bytes may differ arbitrarily, since the existence check
keys on filename alone — inserts nothing and leaves the state (collection
and id supply) unchanged. -/
theorem C10_preload_idempotent_by_filename (dir dir2 : List (String × Bytes))
    (now now2 : Nat) (st : TargetState)
    (hnames : dir2.map Prod.fst = dir.map Prod.fst) :
    preload_target_images dir2 now2 (preload_target_images dir now st) =
      preload_target_images dir now st := by
  apply preload_noop
  intro e he hext
  have hmem : e.1 ∈ dir.map Prod.fst := by
    rw [← hnames]
    exact List.mem_map_of_mem Prod.fst he
  obtain ⟨a, ha, hfst⟩ := List.mem_map.mp hmem
  have := preload_covers dir now st a ha (by rw [hfst]; exact hext)
  rw [← hfst]
  exact this

/-- Witness for C10: rerunning the preload over the same filenames with
different bytes changes nothing. -/
theorem C10_preload_idempotent_by_filename_witness :
    [("x.png", [7]), ("y.txt", [2]), ("z.jpeg", [8])].map Prod.fst =
      [("x.png", [1]), ("y.txt", [2]), ("z.jpeg", [3])].map
        (Prod.fst (α := String) (β := Bytes)) ∧
    preload_target_images [("x.png", [7]), ("y.txt", [2]), ("z.jpeg", [8])]
        10 (preload_target_images
          [("x.png", [1]), ("y.txt", [2]), ("z.jpeg", [3])] 9
          { target_images := [], next_oid := 0 }) =
      preload_target_images [("x.png", [1]), ("y.txt", [2]), ("z.jpeg", [3])]
        9 { target_images := [], next_oid := 0 } :=
  ⟨rfl,
   C10_preload_idempotent_by_filename
     [("x.png", [1]), ("y.txt", [2]), ("z.jpeg", [3])]
     [("x.png", [7]), ("y.txt", [2]), ("z.jpeg", [8])] 9 10
     { target_images := [], next_oid := 0 } rfl⟩

end FaceSwap
